import Mathlib

/-!
Verification of the fm-skin-builder process supervisor
(`src/frontend/src-tauri/src/main.rs`).

Rust strings are modelled as `List Char` (a Rust `String`/`&str` is a
sequence of Unicode scalar values).  Byte-indexed operations of the source
(`str::find` returns a byte offset; `&s[i..]` slices at byte offsets and
panics on out-of-bounds or non-character-boundary indices) are modelled
explicitly: `findSubByte` returns the byte offset of a match and
`byteDrop` / `byteTake` return `none` exactly when the Rust slice would
panic.  Fallible computations return `Option`; a `none` produced by a
slicing helper models a Rust panic.
-/

set_option maxHeartbeats 4000000
set_option maxRecDepth 16384

/-- A Rust string, as its list of Unicode scalar values. -/
abbrev Str := List Char

/-- Shorthand turning a Lean string literal into the `Str` model. -/
def str (s : String) : Str := s.toList

/-- Model of Rust `char::is_whitespace`: the Unicode `White_Space`
property, which holds for exactly the code points listed here. -/
def rustIsWhitespace (c : Char) : Bool :=
  let n := c.toNat
  (0x9 ≤ n && n ≤ 0xD) || n == 0x20 || n == 0x85 || n == 0xA0 ||
  n == 0x1680 || (0x2000 ≤ n && n ≤ 0x200A) || n == 0x2028 ||
  n == 0x2029 || n == 0x202F || n == 0x205F || n == 0x3000

/-- Model of Rust `str::trim_start`. -/
def trimStart (l : Str) : Str := l.dropWhile rustIsWhitespace

/-- Model of Rust `str::trim_end`. -/
def trimEnd (l : Str) : Str := (l.reverse.dropWhile rustIsWhitespace).reverse

/-- Model of Rust `str::trim`: strip Unicode whitespace from both ends. -/
def trim (l : Str) : Str := trimEnd (trimStart l)

/-- Model of Rust `str::contains(pat)` for a literal pattern: some suffix
position of `hay` starts with `needle`. -/
def containsSub (hay needle : Str) : Bool :=
  (List.range (hay.length + 1)).any (fun i => needle.isPrefixOf (hay.drop i))

/-- Character position of the first match of `needle` in `hay`
(the position Rust `str::find` locates, before conversion to bytes). -/
def findSubPos (hay needle : Str) : Option Nat :=
  (List.range (hay.length + 1)).find? (fun i => needle.isPrefixOf (hay.drop i))

/-- UTF-8 byte length of one character, as Rust `char::len_utf8`. -/
def charBytes (c : Char) : Nat :=
  if c.toNat < 0x80 then 1
  else if c.toNat < 0x800 then 2
  else if c.toNat < 0x10000 then 3
  else 4

/-- UTF-8 byte length of a string, as Rust `str::len`. -/
def bytesLen (l : Str) : Nat := (l.map charBytes).sum

/-- Model of Rust `str::find(pat)`: the byte offset of the first match. -/
def findSubByte (hay needle : Str) : Option Nat :=
  (findSubPos hay needle).map (fun p => bytesLen (hay.take p))

/-- Model of the Rust byte slice `&s[b..]`.  Returns `none` (a Rust panic)
when `b` is past the end of the string or not on a character boundary. -/
def byteDrop : Str → Nat → Option Str
  | l, 0 => some l
  | [], _ + 1 => none
  | c :: rest, b + 1 =>
    if b + 1 < charBytes c then none
    else byteDrop rest (b + 1 - charBytes c)

/-- Model of the Rust byte slice `&s[..b]`.  Returns `none` (a Rust panic)
when `b` is past the end of the string or not on a character boundary. -/
def byteTake : Str → Nat → Option Str
  | _, 0 => some []
  | [], _ + 1 => none
  | c :: rest, b + 1 =>
    if b + 1 < charBytes c then none
    else (byteTake rest (b + 1 - charBytes c)).map (fun t => c :: t)

/-- Model of Rust `str::split_whitespace` (auxiliary accumulator form):
maximal runs of non-whitespace characters, in order. -/
def splitWsAux : Str → Str → List Str
  | [], acc => if acc = [] then [] else [acc.reverse]
  | c :: rest, acc =>
    if rustIsWhitespace c then
      if acc = [] then splitWsAux rest []
      else acc.reverse :: splitWsAux rest []
    else splitWsAux rest (c :: acc)

/-- Model of Rust `str::split_whitespace`. -/
def splitWs (l : Str) : List Str := splitWsAux l []

/-- Model of Rust `str::parse::<u32>()`: optional leading `+`, then one or
more ASCII digits, value below `2^32`; anything else is a parse error. -/
def parseU32 (s : Str) : Option Nat :=
  let digits := match s with
    | '+' :: rest => rest
    | other => other
  if digits = [] then none
  else if digits.all Char.isDigit then
    let n := digits.foldl (fun acc c => acc * 10 + (c.toNat - 48)) 0
    if n < 4294967296 then some n else none
  else none

/-- Model of `line.split("===").next().unwrap_or(line)`: the text of the
line before its first `"==="`, or the whole line when it has none. -/
def splitFirstSeg (hay sep : Str) : Str :=
  match findSubPos hay sep with
  | some p => hay.take p
  | none => hay

/-- The bundle-start stage of `parse_progress` (main.rs lines 105-115),
with every byte slice checked.  Outer `none` models a Rust panic;
`some none` means the stage did not match and control falls through to the
"X of Y" stage; `some (some r)` is an early `return Some(r)`. -/
def pattern1Chk (line : Str) : Option (Option (Nat × Nat × Str)) :=
  if containsSub line (str "=== Patching bundle:") then
    match findSubByte line (str "bundle:") with
    | some start =>
      match byteDrop line (start + 7) with
      | none => none
      | some sliced =>
        let bundle_part := trim sliced
        match findSubByte bundle_part (str "===") with
        | some e =>
          match byteTake bundle_part e with
          | none => none
          | some pre => some (some (0, 0, str "Processing: " ++ trim pre))
        | none => some none
    | none => some none
  else some none

/-- The body of the `for i in 0..words.len().saturating_sub(2)` loop of
`parse_progress` (main.rs lines 121-128), iterated over the index list.
Each `words[i]` access is checked: outer `none` models an out-of-bounds
panic, `some none` models falling off the end of the loop. -/
def xofyLoop (line : Str) (words : List Str) :
    List Nat → Option (Option (Nat × Nat × Str))
  | [] => some none
  | i :: rest =>
    match words[i + 1]? with
    | none => none
    | some w1 =>
      if w1 = str "of" then
        match words[i]?, words[i + 2]? with
        | some w0, some w2 =>
          match parseU32 w0, parseU32 w2 with
          | some current, some total =>
            some (some (current, total,
              trim (splitFirstSeg line (str "==="))))
          | _, _ => xofyLoop line words rest
        | _, _ => none
      else xofyLoop line words rest

/-- The "X of Y" stage of `parse_progress` (main.rs lines 117-129), with
its containment pre-filter, as a checked computation. -/
def xofyChk (line : Str) : Option (Option (Nat × Nat × Str)) :=
  if containsSub line (str " of ") || containsSub line (str "/") then
    xofyLoop line (splitWs line)
      (List.range ((splitWs line).length - 2))
  else some none

/-- `parse_progress` (main.rs lines 104-132) as a checked computation:
bundle-start stage first, then the "X of Y" stage, then `None`. -/
def parse_progress_chk (line : Str) : Option (Option (Nat × Nat × Str)) :=
  match pattern1Chk line with
  | none => none
  | some (some r) => some (some r)
  | some none => xofyChk line

/-- The "X of Y" heuristic of `parse_progress` (its second stage), as the
value it returns when it does not panic. -/
def xofy (line : Str) : Option (Nat × Nat × Str) :=
  (xofyChk line).getD none

/-- `parse_progress` from main.rs: the value it returns when it does not
panic (the development proves it never panics). -/
def parse_progress (line : Str) : Option (Nat × Nat × Str) :=
  (parse_progress_chk line).getD none

/-- The Unicode full uppercase mapping, as code points: every code point
whose full (unconditional) uppercase differs from itself, paired with the
code points it maps to — including the one-to-many expansions of
SpecialCasing (for example 0xDF to "SS", 0xFB05 to "ST", 0x149 to
0x2BC 0x4E).  Generated from the Unicode character database; this is the
table Rust `char::to_uppercase` applies. -/
def uppercaseMappings : List (Nat × List Nat) := [
  (97, [65]), (98, [66]), (99, [67]), (100, [68]), (101, [69]), (102, [70]),
  (103, [71]), (104, [72]), (105, [73]), (106, [74]), (107, [75]),
  (108, [76]), (109, [77]), (110, [78]), (111, [79]), (112, [80]),
  (113, [81]), (114, [82]), (115, [83]), (116, [84]), (117, [85]),
  (118, [86]), (119, [87]), (120, [88]), (121, [89]), (122, [90]),
  (181, [924]), (223, [83, 83]), (224, [192]), (225, [193]), (226, [194]),
  (227, [195]), (228, [196]), (229, [197]), (230, [198]), (231, [199]),
  (232, [200]), (233, [201]), (234, [202]), (235, [203]), (236, [204]),
  (237, [205]), (238, [206]), (239, [207]), (240, [208]), (241, [209]),
  (242, [210]), (243, [211]), (244, [212]), (245, [213]), (246, [214]),
  (248, [216]), (249, [217]), (250, [218]), (251, [219]), (252, [220]),
  (253, [221]), (254, [222]), (255, [376]), (257, [256]), (259, [258]),
  (261, [260]), (263, [262]), (265, [264]), (267, [266]), (269, [268]),
  (271, [270]), (273, [272]), (275, [274]), (277, [276]), (279, [278]),
  (281, [280]), (283, [282]), (285, [284]), (287, [286]), (289, [288]),
  (291, [290]), (293, [292]), (295, [294]), (297, [296]), (299, [298]),
  (301, [300]), (303, [302]), (305, [73]), (307, [306]), (309, [308]),
  (311, [310]), (314, [313]), (316, [315]), (318, [317]), (320, [319]),
  (322, [321]), (324, [323]), (326, [325]), (328, [327]), (329, [700, 78]),
  (331, [330]), (333, [332]), (335, [334]), (337, [336]), (339, [338]),
  (341, [340]), (343, [342]), (345, [344]), (347, [346]), (349, [348]),
  (351, [350]), (353, [352]), (355, [354]), (357, [356]), (359, [358]),
  (361, [360]), (363, [362]), (365, [364]), (367, [366]), (369, [368]),
  (371, [370]), (373, [372]), (375, [374]), (378, [377]), (380, [379]),
  (382, [381]), (383, [83]), (384, [579]), (387, [386]), (389, [388]),
  (392, [391]), (396, [395]), (402, [401]), (405, [502]), (409, [408]),
  (410, [573]), (414, [544]), (417, [416]), (419, [418]), (421, [420]),
  (424, [423]), (429, [428]), (432, [431]), (436, [435]), (438, [437]),
  (441, [440]), (445, [444]), (447, [503]), (453, [452]), (454, [452]),
  (456, [455]), (457, [455]), (459, [458]), (460, [458]), (462, [461]),
  (464, [463]), (466, [465]), (468, [467]), (470, [469]), (472, [471]),
  (474, [473]), (476, [475]), (477, [398]), (479, [478]), (481, [480]),
  (483, [482]), (485, [484]), (487, [486]), (489, [488]), (491, [490]),
  (493, [492]), (495, [494]), (496, [74, 780]), (498, [497]), (499, [497]),
  (501, [500]), (505, [504]), (507, [506]), (509, [508]), (511, [510]),
  (513, [512]), (515, [514]), (517, [516]), (519, [518]), (521, [520]),
  (523, [522]), (525, [524]), (527, [526]), (529, [528]), (531, [530]),
  (533, [532]), (535, [534]), (537, [536]), (539, [538]), (541, [540]),
  (543, [542]), (547, [546]), (549, [548]), (551, [550]), (553, [552]),
  (555, [554]), (557, [556]), (559, [558]), (561, [560]), (563, [562]),
  (572, [571]), (575, [11390]), (576, [11391]), (578, [577]), (583, [582]),
  (585, [584]), (587, [586]), (589, [588]), (591, [590]), (592, [11375]),
  (593, [11373]), (594, [11376]), (595, [385]), (596, [390]), (598, [393]),
  (599, [394]), (601, [399]), (603, [400]), (604, [42923]), (608, [403]),
  (609, [42924]), (611, [404]), (613, [42893]), (614, [42922]), (616, [407]),
  (617, [406]), (618, [42926]), (619, [11362]), (620, [42925]), (623, [412]),
  (625, [11374]), (626, [413]), (629, [415]), (637, [11364]), (640, [422]),
  (642, [42949]), (643, [425]), (647, [42929]), (648, [430]), (649, [580]),
  (650, [433]), (651, [434]), (652, [581]), (658, [439]), (669, [42930]),
  (670, [42928]), (837, [921]), (881, [880]), (883, [882]), (887, [886]),
  (891, [1021]), (892, [1022]), (893, [1023]), (912, [921, 776, 769]),
  (940, [902]), (941, [904]), (942, [905]), (943, [906]),
  (944, [933, 776, 769]), (945, [913]), (946, [914]), (947, [915]),
  (948, [916]), (949, [917]), (950, [918]), (951, [919]), (952, [920]),
  (953, [921]), (954, [922]), (955, [923]), (956, [924]), (957, [925]),
  (958, [926]), (959, [927]), (960, [928]), (961, [929]), (962, [931]),
  (963, [931]), (964, [932]), (965, [933]), (966, [934]), (967, [935]),
  (968, [936]), (969, [937]), (970, [938]), (971, [939]), (972, [908]),
  (973, [910]), (974, [911]), (976, [914]), (977, [920]), (981, [934]),
  (982, [928]), (983, [975]), (985, [984]), (987, [986]), (989, [988]),
  (991, [990]), (993, [992]), (995, [994]), (997, [996]), (999, [998]),
  (1001, [1000]), (1003, [1002]), (1005, [1004]), (1007, [1006]),
  (1008, [922]), (1009, [929]), (1010, [1017]), (1011, [895]), (1013, [917]),
  (1016, [1015]), (1019, [1018]), (1072, [1040]), (1073, [1041]),
  (1074, [1042]), (1075, [1043]), (1076, [1044]), (1077, [1045]),
  (1078, [1046]), (1079, [1047]), (1080, [1048]), (1081, [1049]),
  (1082, [1050]), (1083, [1051]), (1084, [1052]), (1085, [1053]),
  (1086, [1054]), (1087, [1055]), (1088, [1056]), (1089, [1057]),
  (1090, [1058]), (1091, [1059]), (1092, [1060]), (1093, [1061]),
  (1094, [1062]), (1095, [1063]), (1096, [1064]), (1097, [1065]),
  (1098, [1066]), (1099, [1067]), (1100, [1068]), (1101, [1069]),
  (1102, [1070]), (1103, [1071]), (1104, [1024]), (1105, [1025]),
  (1106, [1026]), (1107, [1027]), (1108, [1028]), (1109, [1029]),
  (1110, [1030]), (1111, [1031]), (1112, [1032]), (1113, [1033]),
  (1114, [1034]), (1115, [1035]), (1116, [1036]), (1117, [1037]),
  (1118, [1038]), (1119, [1039]), (1121, [1120]), (1123, [1122]),
  (1125, [1124]), (1127, [1126]), (1129, [1128]), (1131, [1130]),
  (1133, [1132]), (1135, [1134]), (1137, [1136]), (1139, [1138]),
  (1141, [1140]), (1143, [1142]), (1145, [1144]), (1147, [1146]),
  (1149, [1148]), (1151, [1150]), (1153, [1152]), (1163, [1162]),
  (1165, [1164]), (1167, [1166]), (1169, [1168]), (1171, [1170]),
  (1173, [1172]), (1175, [1174]), (1177, [1176]), (1179, [1178]),
  (1181, [1180]), (1183, [1182]), (1185, [1184]), (1187, [1186]),
  (1189, [1188]), (1191, [1190]), (1193, [1192]), (1195, [1194]),
  (1197, [1196]), (1199, [1198]), (1201, [1200]), (1203, [1202]),
  (1205, [1204]), (1207, [1206]), (1209, [1208]), (1211, [1210]),
  (1213, [1212]), (1215, [1214]), (1218, [1217]), (1220, [1219]),
  (1222, [1221]), (1224, [1223]), (1226, [1225]), (1228, [1227]),
  (1230, [1229]), (1231, [1216]), (1233, [1232]), (1235, [1234]),
  (1237, [1236]), (1239, [1238]), (1241, [1240]), (1243, [1242]),
  (1245, [1244]), (1247, [1246]), (1249, [1248]), (1251, [1250]),
  (1253, [1252]), (1255, [1254]), (1257, [1256]), (1259, [1258]),
  (1261, [1260]), (1263, [1262]), (1265, [1264]), (1267, [1266]),
  (1269, [1268]), (1271, [1270]), (1273, [1272]), (1275, [1274]),
  (1277, [1276]), (1279, [1278]), (1281, [1280]), (1283, [1282]),
  (1285, [1284]), (1287, [1286]), (1289, [1288]), (1291, [1290]),
  (1293, [1292]), (1295, [1294]), (1297, [1296]), (1299, [1298]),
  (1301, [1300]), (1303, [1302]), (1305, [1304]), (1307, [1306]),
  (1309, [1308]), (1311, [1310]), (1313, [1312]), (1315, [1314]),
  (1317, [1316]), (1319, [1318]), (1321, [1320]), (1323, [1322]),
  (1325, [1324]), (1327, [1326]), (1377, [1329]), (1378, [1330]),
  (1379, [1331]), (1380, [1332]), (1381, [1333]), (1382, [1334]),
  (1383, [1335]), (1384, [1336]), (1385, [1337]), (1386, [1338]),
  (1387, [1339]), (1388, [1340]), (1389, [1341]), (1390, [1342]),
  (1391, [1343]), (1392, [1344]), (1393, [1345]), (1394, [1346]),
  (1395, [1347]), (1396, [1348]), (1397, [1349]), (1398, [1350]),
  (1399, [1351]), (1400, [1352]), (1401, [1353]), (1402, [1354]),
  (1403, [1355]), (1404, [1356]), (1405, [1357]), (1406, [1358]),
  (1407, [1359]), (1408, [1360]), (1409, [1361]), (1410, [1362]),
  (1411, [1363]), (1412, [1364]), (1413, [1365]), (1414, [1366]),
  (1415, [1333, 1362]), (4304, [7312]), (4305, [7313]), (4306, [7314]),
  (4307, [7315]), (4308, [7316]), (4309, [7317]), (4310, [7318]),
  (4311, [7319]), (4312, [7320]), (4313, [7321]), (4314, [7322]),
  (4315, [7323]), (4316, [7324]), (4317, [7325]), (4318, [7326]),
  (4319, [7327]), (4320, [7328]), (4321, [7329]), (4322, [7330]),
  (4323, [7331]), (4324, [7332]), (4325, [7333]), (4326, [7334]),
  (4327, [7335]), (4328, [7336]), (4329, [7337]), (4330, [7338]),
  (4331, [7339]), (4332, [7340]), (4333, [7341]), (4334, [7342]),
  (4335, [7343]), (4336, [7344]), (4337, [7345]), (4338, [7346]),
  (4339, [7347]), (4340, [7348]), (4341, [7349]), (4342, [7350]),
  (4343, [7351]), (4344, [7352]), (4345, [7353]), (4346, [7354]),
  (4349, [7357]), (4350, [7358]), (4351, [7359]), (5112, [5104]),
  (5113, [5105]), (5114, [5106]), (5115, [5107]), (5116, [5108]),
  (5117, [5109]), (7296, [1042]), (7297, [1044]), (7298, [1054]),
  (7299, [1057]), (7300, [1058]), (7301, [1058]), (7302, [1066]),
  (7303, [1122]), (7304, [42570]), (7545, [42877]), (7549, [11363]),
  (7566, [42950]), (7681, [7680]), (7683, [7682]), (7685, [7684]),
  (7687, [7686]), (7689, [7688]), (7691, [7690]), (7693, [7692]),
  (7695, [7694]), (7697, [7696]), (7699, [7698]), (7701, [7700]),
  (7703, [7702]), (7705, [7704]), (7707, [7706]), (7709, [7708]),
  (7711, [7710]), (7713, [7712]), (7715, [7714]), (7717, [7716]),
  (7719, [7718]), (7721, [7720]), (7723, [7722]), (7725, [7724]),
  (7727, [7726]), (7729, [7728]), (7731, [7730]), (7733, [7732]),
  (7735, [7734]), (7737, [7736]), (7739, [7738]), (7741, [7740]),
  (7743, [7742]), (7745, [7744]), (7747, [7746]), (7749, [7748]),
  (7751, [7750]), (7753, [7752]), (7755, [7754]), (7757, [7756]),
  (7759, [7758]), (7761, [7760]), (7763, [7762]), (7765, [7764]),
  (7767, [7766]), (7769, [7768]), (7771, [7770]), (7773, [7772]),
  (7775, [7774]), (7777, [7776]), (7779, [7778]), (7781, [7780]),
  (7783, [7782]), (7785, [7784]), (7787, [7786]), (7789, [7788]),
  (7791, [7790]), (7793, [7792]), (7795, [7794]), (7797, [7796]),
  (7799, [7798]), (7801, [7800]), (7803, [7802]), (7805, [7804]),
  (7807, [7806]), (7809, [7808]), (7811, [7810]), (7813, [7812]),
  (7815, [7814]), (7817, [7816]), (7819, [7818]), (7821, [7820]),
  (7823, [7822]), (7825, [7824]), (7827, [7826]), (7829, [7828]),
  (7830, [72, 817]), (7831, [84, 776]), (7832, [87, 778]), (7833, [89, 778]),
  (7834, [65, 702]), (7835, [7776]), (7841, [7840]), (7843, [7842]),
  (7845, [7844]), (7847, [7846]), (7849, [7848]), (7851, [7850]),
  (7853, [7852]), (7855, [7854]), (7857, [7856]), (7859, [7858]),
  (7861, [7860]), (7863, [7862]), (7865, [7864]), (7867, [7866]),
  (7869, [7868]), (7871, [7870]), (7873, [7872]), (7875, [7874]),
  (7877, [7876]), (7879, [7878]), (7881, [7880]), (7883, [7882]),
  (7885, [7884]), (7887, [7886]), (7889, [7888]), (7891, [7890]),
  (7893, [7892]), (7895, [7894]), (7897, [7896]), (7899, [7898]),
  (7901, [7900]), (7903, [7902]), (7905, [7904]), (7907, [7906]),
  (7909, [7908]), (7911, [7910]), (7913, [7912]), (7915, [7914]),
  (7917, [7916]), (7919, [7918]), (7921, [7920]), (7923, [7922]),
  (7925, [7924]), (7927, [7926]), (7929, [7928]), (7931, [7930]),
  (7933, [7932]), (7935, [7934]), (7936, [7944]), (7937, [7945]),
  (7938, [7946]), (7939, [7947]), (7940, [7948]), (7941, [7949]),
  (7942, [7950]), (7943, [7951]), (7952, [7960]), (7953, [7961]),
  (7954, [7962]), (7955, [7963]), (7956, [7964]), (7957, [7965]),
  (7968, [7976]), (7969, [7977]), (7970, [7978]), (7971, [7979]),
  (7972, [7980]), (7973, [7981]), (7974, [7982]), (7975, [7983]),
  (7984, [7992]), (7985, [7993]), (7986, [7994]), (7987, [7995]),
  (7988, [7996]), (7989, [7997]), (7990, [7998]), (7991, [7999]),
  (8000, [8008]), (8001, [8009]), (8002, [8010]), (8003, [8011]),
  (8004, [8012]), (8005, [8013]), (8016, [933, 787]), (8017, [8025]),
  (8018, [933, 787, 768]), (8019, [8027]), (8020, [933, 787, 769]),
  (8021, [8029]), (8022, [933, 787, 834]), (8023, [8031]), (8032, [8040]),
  (8033, [8041]), (8034, [8042]), (8035, [8043]), (8036, [8044]),
  (8037, [8045]), (8038, [8046]), (8039, [8047]), (8048, [8122]),
  (8049, [8123]), (8050, [8136]), (8051, [8137]), (8052, [8138]),
  (8053, [8139]), (8054, [8154]), (8055, [8155]), (8056, [8184]),
  (8057, [8185]), (8058, [8170]), (8059, [8171]), (8060, [8186]),
  (8061, [8187]), (8064, [7944, 921]), (8065, [7945, 921]),
  (8066, [7946, 921]), (8067, [7947, 921]), (8068, [7948, 921]),
  (8069, [7949, 921]), (8070, [7950, 921]), (8071, [7951, 921]),
  (8072, [7944, 921]), (8073, [7945, 921]), (8074, [7946, 921]),
  (8075, [7947, 921]), (8076, [7948, 921]), (8077, [7949, 921]),
  (8078, [7950, 921]), (8079, [7951, 921]), (8080, [7976, 921]),
  (8081, [7977, 921]), (8082, [7978, 921]), (8083, [7979, 921]),
  (8084, [7980, 921]), (8085, [7981, 921]), (8086, [7982, 921]),
  (8087, [7983, 921]), (8088, [7976, 921]), (8089, [7977, 921]),
  (8090, [7978, 921]), (8091, [7979, 921]), (8092, [7980, 921]),
  (8093, [7981, 921]), (8094, [7982, 921]), (8095, [7983, 921]),
  (8096, [8040, 921]), (8097, [8041, 921]), (8098, [8042, 921]),
  (8099, [8043, 921]), (8100, [8044, 921]), (8101, [8045, 921]),
  (8102, [8046, 921]), (8103, [8047, 921]), (8104, [8040, 921]),
  (8105, [8041, 921]), (8106, [8042, 921]), (8107, [8043, 921]),
  (8108, [8044, 921]), (8109, [8045, 921]), (8110, [8046, 921]),
  (8111, [8047, 921]), (8112, [8120]), (8113, [8121]), (8114, [8122, 921]),
  (8115, [913, 921]), (8116, [902, 921]), (8118, [913, 834]),
  (8119, [913, 834, 921]), (8124, [913, 921]), (8126, [921]),
  (8130, [8138, 921]), (8131, [919, 921]), (8132, [905, 921]),
  (8134, [919, 834]), (8135, [919, 834, 921]), (8140, [919, 921]),
  (8144, [8152]), (8145, [8153]), (8146, [921, 776, 768]),
  (8147, [921, 776, 769]), (8150, [921, 834]), (8151, [921, 776, 834]),
  (8160, [8168]), (8161, [8169]), (8162, [933, 776, 768]),
  (8163, [933, 776, 769]), (8164, [929, 787]), (8165, [8172]),
  (8166, [933, 834]), (8167, [933, 776, 834]), (8178, [8186, 921]),
  (8179, [937, 921]), (8180, [911, 921]), (8182, [937, 834]),
  (8183, [937, 834, 921]), (8188, [937, 921]), (8526, [8498]),
  (8560, [8544]), (8561, [8545]), (8562, [8546]), (8563, [8547]),
  (8564, [8548]), (8565, [8549]), (8566, [8550]), (8567, [8551]),
  (8568, [8552]), (8569, [8553]), (8570, [8554]), (8571, [8555]),
  (8572, [8556]), (8573, [8557]), (8574, [8558]), (8575, [8559]),
  (8580, [8579]), (9424, [9398]), (9425, [9399]), (9426, [9400]),
  (9427, [9401]), (9428, [9402]), (9429, [9403]), (9430, [9404]),
  (9431, [9405]), (9432, [9406]), (9433, [9407]), (9434, [9408]),
  (9435, [9409]), (9436, [9410]), (9437, [9411]), (9438, [9412]),
  (9439, [9413]), (9440, [9414]), (9441, [9415]), (9442, [9416]),
  (9443, [9417]), (9444, [9418]), (9445, [9419]), (9446, [9420]),
  (9447, [9421]), (9448, [9422]), (9449, [9423]), (11312, [11264]),
  (11313, [11265]), (11314, [11266]), (11315, [11267]), (11316, [11268]),
  (11317, [11269]), (11318, [11270]), (11319, [11271]), (11320, [11272]),
  (11321, [11273]), (11322, [11274]), (11323, [11275]), (11324, [11276]),
  (11325, [11277]), (11326, [11278]), (11327, [11279]), (11328, [11280]),
  (11329, [11281]), (11330, [11282]), (11331, [11283]), (11332, [11284]),
  (11333, [11285]), (11334, [11286]), (11335, [11287]), (11336, [11288]),
  (11337, [11289]), (11338, [11290]), (11339, [11291]), (11340, [11292]),
  (11341, [11293]), (11342, [11294]), (11343, [11295]), (11344, [11296]),
  (11345, [11297]), (11346, [11298]), (11347, [11299]), (11348, [11300]),
  (11349, [11301]), (11350, [11302]), (11351, [11303]), (11352, [11304]),
  (11353, [11305]), (11354, [11306]), (11355, [11307]), (11356, [11308]),
  (11357, [11309]), (11358, [11310]), (11359, [11311]), (11361, [11360]),
  (11365, [570]), (11366, [574]), (11368, [11367]), (11370, [11369]),
  (11372, [11371]), (11379, [11378]), (11382, [11381]), (11393, [11392]),
  (11395, [11394]), (11397, [11396]), (11399, [11398]), (11401, [11400]),
  (11403, [11402]), (11405, [11404]), (11407, [11406]), (11409, [11408]),
  (11411, [11410]), (11413, [11412]), (11415, [11414]), (11417, [11416]),
  (11419, [11418]), (11421, [11420]), (11423, [11422]), (11425, [11424]),
  (11427, [11426]), (11429, [11428]), (11431, [11430]), (11433, [11432]),
  (11435, [11434]), (11437, [11436]), (11439, [11438]), (11441, [11440]),
  (11443, [11442]), (11445, [11444]), (11447, [11446]), (11449, [11448]),
  (11451, [11450]), (11453, [11452]), (11455, [11454]), (11457, [11456]),
  (11459, [11458]), (11461, [11460]), (11463, [11462]), (11465, [11464]),
  (11467, [11466]), (11469, [11468]), (11471, [11470]), (11473, [11472]),
  (11475, [11474]), (11477, [11476]), (11479, [11478]), (11481, [11480]),
  (11483, [11482]), (11485, [11484]), (11487, [11486]), (11489, [11488]),
  (11491, [11490]), (11500, [11499]), (11502, [11501]), (11507, [11506]),
  (11520, [4256]), (11521, [4257]), (11522, [4258]), (11523, [4259]),
  (11524, [4260]), (11525, [4261]), (11526, [4262]), (11527, [4263]),
  (11528, [4264]), (11529, [4265]), (11530, [4266]), (11531, [4267]),
  (11532, [4268]), (11533, [4269]), (11534, [4270]), (11535, [4271]),
  (11536, [4272]), (11537, [4273]), (11538, [4274]), (11539, [4275]),
  (11540, [4276]), (11541, [4277]), (11542, [4278]), (11543, [4279]),
  (11544, [4280]), (11545, [4281]), (11546, [4282]), (11547, [4283]),
  (11548, [4284]), (11549, [4285]), (11550, [4286]), (11551, [4287]),
  (11552, [4288]), (11553, [4289]), (11554, [4290]), (11555, [4291]),
  (11556, [4292]), (11557, [4293]), (11559, [4295]), (11565, [4301]),
  (42561, [42560]), (42563, [42562]), (42565, [42564]), (42567, [42566]),
  (42569, [42568]), (42571, [42570]), (42573, [42572]), (42575, [42574]),
  (42577, [42576]), (42579, [42578]), (42581, [42580]), (42583, [42582]),
  (42585, [42584]), (42587, [42586]), (42589, [42588]), (42591, [42590]),
  (42593, [42592]), (42595, [42594]), (42597, [42596]), (42599, [42598]),
  (42601, [42600]), (42603, [42602]), (42605, [42604]), (42625, [42624]),
  (42627, [42626]), (42629, [42628]), (42631, [42630]), (42633, [42632]),
  (42635, [42634]), (42637, [42636]), (42639, [42638]), (42641, [42640]),
  (42643, [42642]), (42645, [42644]), (42647, [42646]), (42649, [42648]),
  (42651, [42650]), (42787, [42786]), (42789, [42788]), (42791, [42790]),
  (42793, [42792]), (42795, [42794]), (42797, [42796]), (42799, [42798]),
  (42803, [42802]), (42805, [42804]), (42807, [42806]), (42809, [42808]),
  (42811, [42810]), (42813, [42812]), (42815, [42814]), (42817, [42816]),
  (42819, [42818]), (42821, [42820]), (42823, [42822]), (42825, [42824]),
  (42827, [42826]), (42829, [42828]), (42831, [42830]), (42833, [42832]),
  (42835, [42834]), (42837, [42836]), (42839, [42838]), (42841, [42840]),
  (42843, [42842]), (42845, [42844]), (42847, [42846]), (42849, [42848]),
  (42851, [42850]), (42853, [42852]), (42855, [42854]), (42857, [42856]),
  (42859, [42858]), (42861, [42860]), (42863, [42862]), (42874, [42873]),
  (42876, [42875]), (42879, [42878]), (42881, [42880]), (42883, [42882]),
  (42885, [42884]), (42887, [42886]), (42892, [42891]), (42897, [42896]),
  (42899, [42898]), (42900, [42948]), (42903, [42902]), (42905, [42904]),
  (42907, [42906]), (42909, [42908]), (42911, [42910]), (42913, [42912]),
  (42915, [42914]), (42917, [42916]), (42919, [42918]), (42921, [42920]),
  (42933, [42932]), (42935, [42934]), (42937, [42936]), (42939, [42938]),
  (42941, [42940]), (42943, [42942]), (42945, [42944]), (42947, [42946]),
  (42952, [42951]), (42954, [42953]), (42961, [42960]), (42967, [42966]),
  (42969, [42968]), (42998, [42997]), (43859, [42931]), (43888, [5024]),
  (43889, [5025]), (43890, [5026]), (43891, [5027]), (43892, [5028]),
  (43893, [5029]), (43894, [5030]), (43895, [5031]), (43896, [5032]),
  (43897, [5033]), (43898, [5034]), (43899, [5035]), (43900, [5036]),
  (43901, [5037]), (43902, [5038]), (43903, [5039]), (43904, [5040]),
  (43905, [5041]), (43906, [5042]), (43907, [5043]), (43908, [5044]),
  (43909, [5045]), (43910, [5046]), (43911, [5047]), (43912, [5048]),
  (43913, [5049]), (43914, [5050]), (43915, [5051]), (43916, [5052]),
  (43917, [5053]), (43918, [5054]), (43919, [5055]), (43920, [5056]),
  (43921, [5057]), (43922, [5058]), (43923, [5059]), (43924, [5060]),
  (43925, [5061]), (43926, [5062]), (43927, [5063]), (43928, [5064]),
  (43929, [5065]), (43930, [5066]), (43931, [5067]), (43932, [5068]),
  (43933, [5069]), (43934, [5070]), (43935, [5071]), (43936, [5072]),
  (43937, [5073]), (43938, [5074]), (43939, [5075]), (43940, [5076]),
  (43941, [5077]), (43942, [5078]), (43943, [5079]), (43944, [5080]),
  (43945, [5081]), (43946, [5082]), (43947, [5083]), (43948, [5084]),
  (43949, [5085]), (43950, [5086]), (43951, [5087]), (43952, [5088]),
  (43953, [5089]), (43954, [5090]), (43955, [5091]), (43956, [5092]),
  (43957, [5093]), (43958, [5094]), (43959, [5095]), (43960, [5096]),
  (43961, [5097]), (43962, [5098]), (43963, [5099]), (43964, [5100]),
  (43965, [5101]), (43966, [5102]), (43967, [5103]), (64256, [70, 70]),
  (64257, [70, 73]), (64258, [70, 76]), (64259, [70, 70, 73]),
  (64260, [70, 70, 76]), (64261, [83, 84]), (64262, [83, 84]),
  (64275, [1348, 1350]), (64276, [1348, 1333]), (64277, [1348, 1339]),
  (64278, [1358, 1350]), (64279, [1348, 1341]), (65345, [65313]),
  (65346, [65314]), (65347, [65315]), (65348, [65316]), (65349, [65317]),
  (65350, [65318]), (65351, [65319]), (65352, [65320]), (65353, [65321]),
  (65354, [65322]), (65355, [65323]), (65356, [65324]), (65357, [65325]),
  (65358, [65326]), (65359, [65327]), (65360, [65328]), (65361, [65329]),
  (65362, [65330]), (65363, [65331]), (65364, [65332]), (65365, [65333]),
  (65366, [65334]), (65367, [65335]), (65368, [65336]), (65369, [65337]),
  (65370, [65338]), (66600, [66560]), (66601, [66561]), (66602, [66562]),
  (66603, [66563]), (66604, [66564]), (66605, [66565]), (66606, [66566]),
  (66607, [66567]), (66608, [66568]), (66609, [66569]), (66610, [66570]),
  (66611, [66571]), (66612, [66572]), (66613, [66573]), (66614, [66574]),
  (66615, [66575]), (66616, [66576]), (66617, [66577]), (66618, [66578]),
  (66619, [66579]), (66620, [66580]), (66621, [66581]), (66622, [66582]),
  (66623, [66583]), (66624, [66584]), (66625, [66585]), (66626, [66586]),
  (66627, [66587]), (66628, [66588]), (66629, [66589]), (66630, [66590]),
  (66631, [66591]), (66632, [66592]), (66633, [66593]), (66634, [66594]),
  (66635, [66595]), (66636, [66596]), (66637, [66597]), (66638, [66598]),
  (66639, [66599]), (66776, [66736]), (66777, [66737]), (66778, [66738]),
  (66779, [66739]), (66780, [66740]), (66781, [66741]), (66782, [66742]),
  (66783, [66743]), (66784, [66744]), (66785, [66745]), (66786, [66746]),
  (66787, [66747]), (66788, [66748]), (66789, [66749]), (66790, [66750]),
  (66791, [66751]), (66792, [66752]), (66793, [66753]), (66794, [66754]),
  (66795, [66755]), (66796, [66756]), (66797, [66757]), (66798, [66758]),
  (66799, [66759]), (66800, [66760]), (66801, [66761]), (66802, [66762]),
  (66803, [66763]), (66804, [66764]), (66805, [66765]), (66806, [66766]),
  (66807, [66767]), (66808, [66768]), (66809, [66769]), (66810, [66770]),
  (66811, [66771]), (66967, [66928]), (66968, [66929]), (66969, [66930]),
  (66970, [66931]), (66971, [66932]), (66972, [66933]), (66973, [66934]),
  (66974, [66935]), (66975, [66936]), (66976, [66937]), (66977, [66938]),
  (66979, [66940]), (66980, [66941]), (66981, [66942]), (66982, [66943]),
  (66983, [66944]), (66984, [66945]), (66985, [66946]), (66986, [66947]),
  (66987, [66948]), (66988, [66949]), (66989, [66950]), (66990, [66951]),
  (66991, [66952]), (66992, [66953]), (66993, [66954]), (66995, [66956]),
  (66996, [66957]), (66997, [66958]), (66998, [66959]), (66999, [66960]),
  (67000, [66961]), (67001, [66962]), (67003, [66964]), (67004, [66965]),
  (68800, [68736]), (68801, [68737]), (68802, [68738]), (68803, [68739]),
  (68804, [68740]), (68805, [68741]), (68806, [68742]), (68807, [68743]),
  (68808, [68744]), (68809, [68745]), (68810, [68746]), (68811, [68747]),
  (68812, [68748]), (68813, [68749]), (68814, [68750]), (68815, [68751]),
  (68816, [68752]), (68817, [68753]), (68818, [68754]), (68819, [68755]),
  (68820, [68756]), (68821, [68757]), (68822, [68758]), (68823, [68759]),
  (68824, [68760]), (68825, [68761]), (68826, [68762]), (68827, [68763]),
  (68828, [68764]), (68829, [68765]), (68830, [68766]), (68831, [68767]),
  (68832, [68768]), (68833, [68769]), (68834, [68770]), (68835, [68771]),
  (68836, [68772]), (68837, [68773]), (68838, [68774]), (68839, [68775]),
  (68840, [68776]), (68841, [68777]), (68842, [68778]), (68843, [68779]),
  (68844, [68780]), (68845, [68781]), (68846, [68782]), (68847, [68783]),
  (68848, [68784]), (68849, [68785]), (68850, [68786]), (71872, [71840]),
  (71873, [71841]), (71874, [71842]), (71875, [71843]), (71876, [71844]),
  (71877, [71845]), (71878, [71846]), (71879, [71847]), (71880, [71848]),
  (71881, [71849]), (71882, [71850]), (71883, [71851]), (71884, [71852]),
  (71885, [71853]), (71886, [71854]), (71887, [71855]), (71888, [71856]),
  (71889, [71857]), (71890, [71858]), (71891, [71859]), (71892, [71860]),
  (71893, [71861]), (71894, [71862]), (71895, [71863]), (71896, [71864]),
  (71897, [71865]), (71898, [71866]), (71899, [71867]), (71900, [71868]),
  (71901, [71869]), (71902, [71870]), (71903, [71871]), (93792, [93760]),
  (93793, [93761]), (93794, [93762]), (93795, [93763]), (93796, [93764]),
  (93797, [93765]), (93798, [93766]), (93799, [93767]), (93800, [93768]),
  (93801, [93769]), (93802, [93770]), (93803, [93771]), (93804, [93772]),
  (93805, [93773]), (93806, [93774]), (93807, [93775]), (93808, [93776]),
  (93809, [93777]), (93810, [93778]), (93811, [93779]), (93812, [93780]),
  (93813, [93781]), (93814, [93782]), (93815, [93783]), (93816, [93784]),
  (93817, [93785]), (93818, [93786]), (93819, [93787]), (93820, [93788]),
  (93821, [93789]), (93822, [93790]), (93823, [93791]), (125218, [125184]),
  (125219, [125185]), (125220, [125186]), (125221, [125187]),
  (125222, [125188]), (125223, [125189]), (125224, [125190]),
  (125225, [125191]), (125226, [125192]), (125227, [125193]),
  (125228, [125194]), (125229, [125195]), (125230, [125196]),
  (125231, [125197]), (125232, [125198]), (125233, [125199]),
  (125234, [125200]), (125235, [125201]), (125236, [125202]),
  (125237, [125203]), (125238, [125204]), (125239, [125205]),
  (125240, [125206]), (125241, [125207]), (125242, [125208]),
  (125243, [125209]), (125244, [125210]), (125245, [125211]),
  (125246, [125212]), (125247, [125213]), (125248, [125214]),
  (125249, [125215]), (125250, [125216]), (125251, [125217])]

/-- Model of Rust `char::to_uppercase`: look the character up in the
mapping table; characters not in the table uppercase to themselves. -/
def rustToUpper (c : Char) : List Char :=
  match uppercaseMappings.find? (fun p => p.1 == c.toNat) with
  | some p => p.2.map Char.ofNat
  | none => [c]

/-- Model of Rust `str::to_uppercase`: the concatenation of the full
uppercase mapping of each character (Rust applies no context-dependent
rules when uppercasing, so the mapping is character-wise). -/
def toUpperStr (l : Str) : Str := (l.map rustToUpper).flatten

/-- `get_log_level` from main.rs lines 135-144. -/
def get_log_level (line : Str) : Str :=
  let line_upper := toUpperStr line
  if containsSub line_upper (str "ERROR") ||
     containsSub line_upper (str "✗") ||
     containsSub line_upper (str "[STDERR]") then
    str "error"
  else if containsSub line_upper (str "WARN") ||
          containsSub line_upper (str "WARNING") then
    str "warning"
  else
    str "info"

/-!
## Event and supervisor model

`run_python_task` (main.rs lines 146-302) spawns the worker, starts two
concurrent drainer tasks (one per output stream), waits for the process,
joins both tasks, and only then emits the completion event.  The model
makes the external world explicit as a `RunWorld`: the outcome of the OS
spawn, the lines each stream delivers before EOF or a read error stops its
loop, the outcome of the process wait, the outcome of each task join, and
a schedule fixing how the two drainers' concurrent emissions interleave.
Events emitted by the drainers appear in per-stream order; the completion
event is appended only on the path where the wait and both joins succeed,
exactly as in the source (on a wait or join error the function returns the
error before reaching the emission of the completion event).
-/

/-- One emitted event: `build_log`, `build_progress` or `build_complete`
payloads from main.rs. -/
inductive Event where
  | log : Str → Str → Event
  | progress : Nat → Nat → Str → Event
  | completion : Bool → Int → Str → Event
deriving DecidableEq

/-- `TaskConfig` from main.rs lines 37-44. -/
structure TaskConfig where
  skin_path : Str
  bundles_path : Str
  debug_export : Bool
  dry_run : Bool
deriving DecidableEq

/-- `CommandResult` from main.rs lines 30-35. -/
structure CommandResultM where
  stdout : Str
  stderr : Str
  status : Int
deriving DecidableEq

/-- The value `run_python_task` hands its caller: `Ok(CommandResult)` or
`Err(String)`. -/
inductive RunRes where
  | ok : CommandResultM → RunRes
  | err : Str → RunRes
deriving DecidableEq

/-- `build_cli_args` from main.rs lines 76-99. -/
def build_cli_args (config : TaskConfig) : Except Str (List Str) :=
  let skin := trim config.skin_path
  if skin = [] then
    .error (str "Skin folder is required.")
  else
    let args := [str "patch", skin]
    let bundles := trim config.bundles_path
    let args := if bundles = [] then args else args ++ [str "--bundle", bundles]
    let args := if config.debug_export then args ++ [str "--debug-export"] else args
    let args := if config.dry_run then args ++ [str "--dry-run"] else args
    .ok args

/-- Events the stdout drainer emits for one line (main.rs lines 217-243):
a `ProgressEvent` when `parse_progress` yields `total > 0`, then always
the line's `LogEvent` with its classified level. -/
def stdoutLineEvents (line : Str) : List Event :=
  (match parse_progress line with
   | some (current, total, status) =>
     if 0 < total then [Event.progress current total status] else []
   | none => []) ++ [Event.log line (get_log_level line)]

/-- Events the stderr drainer emits for one line (main.rs lines 251-262):
one `LogEvent` with the `"[STDERR] "`-tagged message and hard-coded level
`"error"`; no progress parsing happens on this path. -/
def stderrLineEvents (line : Str) : List Event :=
  [Event.log (str "[STDERR] " ++ line) (str "error")]

/-- The stdout drainer task over the lines its loop reads. -/
def stdoutDrain (lines : List Str) : List Event :=
  (lines.map stdoutLineEvents).flatten

/-- The stderr drainer task over the lines its loop reads. -/
def stderrDrain (lines : List Str) : List Event :=
  (lines.map stderrLineEvents).flatten

/-- An interleaving of two event sequences, keeping each sequence's own
order: each schedule entry picks which drainer emits next (falling back to
the other when that drainer is done); once the schedule is exhausted the
remainders are emitted in sequence.  Quantifying over all schedules covers
every arrival-time interleaving the two concurrent tasks can produce. -/
def interleave : List Bool → List Event → List Event → List Event
  | [], xs, ys => xs ++ ys
  | true :: _, [], ys => ys
  | true :: s, x :: xs, ys => x :: interleave s xs ys
  | false :: _, xs, [] => xs
  | false :: s, xs, y :: ys => y :: interleave s xs ys

/-- The environment of one supervised run: everything the OS and the
worker process decide.  `spawnErr` is the spawn outcome; `captureOut` and
`captureErr` say whether the piped handles were obtained; the line lists
are what each drainer loop reads before EOF or a read error stops it;
`waitErr` is a wait failure; `exitCode` is `ExitStatus::code()` (`none`
when the platform reports no numeric code); `joinOutErr` and `joinErrErr`
are task-join failures; `sched` fixes the drainers' interleaving. -/
structure RunWorld where
  spawnErr : Option Str
  captureOut : Bool
  captureErr : Bool
  stdoutLines : List Str
  stderrLines : List Str
  waitErr : Option Str
  exitCode : Option Int
  joinOutErr : Option Str
  joinErrErr : Option Str
  sched : List Bool
deriving DecidableEq

/-- Everything observable about one run: the events emitted to the app
handle, the value returned to the caller, and whether the supervisor
reached the OS spawn call at all. -/
structure RunOutcome where
  events : List Event
  result : RunRes
  attemptedSpawn : Bool
deriving DecidableEq

/-- `run_python_task` from main.rs lines 146-302 over an explicit world.
Control flow in source order: `build_cli_args` (its `Err` propagates with
no process and no events), spawn, capture of the two piped handles, the
two drainer tasks (their emissions interleaved by the schedule), the
process wait, the two joins, and — only when wait and both joins
succeeded — the single completion event and the `Ok` result.  On a wait
or join error the function returns that error and never reaches the
completion emission; the already-running drainer tasks' events stand. -/
def run_python_task (config : TaskConfig) (w : RunWorld) : RunOutcome :=
  match build_cli_args config with
  | .error e => ⟨[], .err e, false⟩
  | .ok _ =>
    match w.spawnErr with
    | some e => ⟨[], .err (str "Failed to spawn process: " ++ e), true⟩
    | none =>
      if w.captureOut = false then ⟨[], .err (str "Failed to capture stdout"), true⟩
      else if w.captureErr = false then ⟨[], .err (str "Failed to capture stderr"), true⟩
      else
        let drained := interleave w.sched (stdoutDrain w.stdoutLines)
          (stderrDrain w.stderrLines)
        match w.waitErr with
        | some e => ⟨drained, .err (str "Failed to wait for process: " ++ e), true⟩
        | none =>
          match w.joinOutErr with
          | some e => ⟨drained, .err (str "Failed to read stdout: " ++ e), true⟩
          | none =>
            match w.joinErrErr with
            | some e => ⟨drained, .err (str "Failed to read stderr: " ++ e), true⟩
            | none =>
              let exit_code : Int := w.exitCode.getD (-1)
              let success : Bool := w.exitCode == some 0
              let msg : Str :=
                if success then str "Build completed successfully"
                else str "Build failed with exit code " ++ (toString exit_code).toList
              ⟨drained ++ [Event.completion success exit_code msg],
               .ok ⟨(w.stdoutLines.intersperse (str "\n")).flatten,
                    (w.stderrLines.intersperse (str "\n")).flatten,
                    exit_code⟩,
               true⟩

/-- Vec::join("\n") on the collected raw lines of one stream. -/
def joinNL (lines : List Str) : Str := (lines.intersperse (str "\n")).flatten

/-- The completion message main.rs builds from the exit status. -/
def completionMsg (code : Option Int) : Str :=
  if code == some 0 then str "Build completed successfully"
  else str "Build failed with exit code " ++ (toString (code.getD (-1))).toList

/-- Event-kind discriminators. -/
def isLog : Event → Bool
  | .log _ _ => true
  | _ => false

def isProgress : Event → Bool
  | .progress _ _ _ => true
  | _ => false

def isCompletion : Event → Bool
  | .completion _ _ _ => true
  | _ => false

/-- How many events of a kind a trace holds. -/
def countP (p : Event → Bool) (evs : List Event) : Nat := (evs.filter p).length

/-!
## Spec-side reference definitions and concrete witness inputs
-/

/-- The "X of Y" scan exactly as the specification words it: tokenize the
line on whitespace, scan adjacent triples left to right, and on the first
triple `(numberA, "of", numberB)` whose numbers parse, return them with
the status the trimmed text of the line before its first `"==="`.
Spec-side reference definition, to be compared with the source-derived
`xofy`. -/
def scanTriples (line : Str) : List Str → Option (Nat × Nat × Str)
  | w0 :: w1 :: w2 :: rest =>
    if w1 = str "of" then
      match parseU32 w0, parseU32 w2 with
      | some current, some total =>
        some (current, total, trim (splitFirstSeg line (str "===")))
      | _, _ => scanTriples line (w1 :: w2 :: rest)
    else scanTriples line (w1 :: w2 :: rest)
  | _ => none

/-- The whole extraction step as the specification words it. -/
def xofySpec (line : Str) : Option (Nat × Nat × Str) :=
  scanTriples line (splitWs line)

/-- Case-insensitive containment as the specification words it: the
uppercased line contains the uppercased pattern. -/
def containsCI (line pat : Str) : Bool :=
  containsSub (toUpperStr line) (toUpperStr pat)

/-- The bundle name as the claim describes it: the trimmed text between
the end of the first "=== Patching bundle:" marker occurrence and the
first "===" after it (spec-side reference definition; the marker is 20
characters long). -/
def specBundleName (line : Str) : Option Str :=
  match findSubPos line (str "=== Patching bundle:") with
  | none => none
  | some i =>
    let after := line.drop (i + 20)
    match findSubPos after (str "===") with
    | none => none
    | some j => some (trim (after.take j))

/-- A demonstration configuration with a non-empty skin path. -/
def cfgDemo : TaskConfig := ⟨str "skin", str "bundles", true, false⟩

/-- A configuration whose skin path trims to empty. -/
def cfgNoSkin : TaskConfig := ⟨str "  ", [], false, false⟩

/-- A world in which the OS spawn fails. -/
def wSpawnFail : RunWorld :=
  ⟨some (str "no such file"), true, true, [], [], none, none, none, none, []⟩

/-- A fully successful world: two stdout lines, one stderr line,
exit code 0. -/
def wDemo : RunWorld :=
  ⟨none, true, true, [str "hello", str "2 of 4 done"], [str "oops"],
   none, some 0, none, none, [true, false]⟩

/-!
## Byte-slice safety

Every byte offset `parse_progress` slices at is the byte length of a
character-aligned prefix, so the checked slicing helpers always succeed.
-/

theorem charBytes_pos (c : Char) : 1 ≤ charBytes c := by
  unfold charBytes
  split
  · omega
  split
  · omega
  split <;> omega

theorem bytesLen_append (a b : Str) : bytesLen (a ++ b) = bytesLen a + bytesLen b := by
  unfold bytesLen
  rw [List.map_append, List.sum_append]

theorem byteDrop_append (a b : Str) : byteDrop (a ++ b) (bytesLen a) = some b := by
  induction a with
  | nil => simp [byteDrop, bytesLen]
  | cons c a ih =>
    have hpos := charBytes_pos c
    have hlen : bytesLen (c :: a) = charBytes c + bytesLen a := by
      simp [bytesLen]
    obtain ⟨m, hm⟩ : ∃ m, bytesLen (c :: a) = m + 1 :=
      ⟨bytesLen (c :: a) - 1, by omega⟩
    have hcons : (c :: a) ++ b = c :: (a ++ b) := rfl
    rw [hcons, hm]
    show byteDrop (c :: (a ++ b)) (m + 1) = some b
    rw [byteDrop]
    rw [if_neg (by omega)]
    have harg : m + 1 - charBytes c = bytesLen a := by omega
    rw [harg, ih]

theorem byteTake_append (a b : Str) : byteTake (a ++ b) (bytesLen a) = some a := by
  induction a with
  | nil => simp [byteTake, bytesLen]
  | cons c a ih =>
    have hpos := charBytes_pos c
    have hlen : bytesLen (c :: a) = charBytes c + bytesLen a := by
      simp [bytesLen]
    obtain ⟨m, hm⟩ : ∃ m, bytesLen (c :: a) = m + 1 :=
      ⟨bytesLen (c :: a) - 1, by omega⟩
    have hcons : (c :: a) ++ b = c :: (a ++ b) := rfl
    rw [hcons, hm]
    show byteTake (c :: (a ++ b)) (m + 1) = some (c :: a)
    rw [byteTake]
    rw [if_neg (by omega)]
    have harg : m + 1 - charBytes c = bytesLen a := by omega
    rw [harg, ih]
    rfl

/-!
## Substring search facts
-/

theorem findSubPos_spec {hay needle : Str} {p : Nat}
    (h : findSubPos hay needle = some p) :
    needle <+: hay.drop p ∧ p ≤ hay.length := by
  unfold findSubPos at h
  have h1 := List.find?_some h
  have h2 := List.mem_of_find?_eq_some h
  rw [List.mem_range] at h2
  exact ⟨List.isPrefixOf_iff_prefix.mp h1, by omega⟩

theorem findSubPos_of_contains {hay needle : Str}
    (h : containsSub hay needle = true) :
    ∃ p, findSubPos hay needle = some p := by
  unfold containsSub at h
  obtain ⟨x, hx, hpre⟩ := List.any_eq_true.mp h
  have : (findSubPos hay needle).isSome := by
    unfold findSubPos
    exact List.find?_isSome.mpr ⟨x, hx, hpre⟩
  exact Option.isSome_iff_exists.mp this

theorem findSubPos_eq_none_of_not_contains {hay needle : Str}
    (h : containsSub hay needle = false) :
    findSubPos hay needle = none := by
  unfold containsSub at h
  unfold findSubPos
  rw [List.find?_eq_none]
  intro x hx hpre
  have : (List.range (hay.length + 1)).any
      (fun i => needle.isPrefixOf (hay.drop i)) = true :=
    List.any_eq_true.mpr ⟨x, hx, hpre⟩
  rw [h] at this
  exact Bool.false_ne_true this

theorem contains_of_prefix_at {hay needle : Str} {p : Nat}
    (hp : p ≤ hay.length) (h : needle <+: hay.drop p) :
    containsSub hay needle = true := by
  unfold containsSub
  exact List.any_eq_true.mpr
    ⟨p, List.mem_range.mpr (by omega), List.isPrefixOf_iff_prefix.mpr h⟩

/-- A containment witness for a pattern of the shape `u ++ v` yields a
containment witness for `v` (used to pass from the bundle-start marker to
its trailing `"bundle:"`). -/
theorem containsSub_of_append_split {hay u v : Str}
    (h : containsSub hay (u ++ v) = true) : containsSub hay v = true := by
  obtain ⟨p, hp⟩ := findSubPos_of_contains h
  obtain ⟨hpre, hple⟩ := findSubPos_spec hp
  obtain ⟨t, ht⟩ := hpre
  have hdrop : hay.drop (p + u.length) = v ++ t := by
    have h1 : List.drop u.length (List.drop p hay) = List.drop (p + u.length) hay :=
      List.drop_drop u.length p hay
    rw [← h1, ← ht, List.append_assoc, List.drop_left]
  have hlen : p + u.length ≤ hay.length := by
    have h1 : (hay.drop p).length = hay.length - p := List.length_drop p hay
    have h3 : (hay.drop p).length = u.length + v.length + t.length := by
      rw [← ht]; simp [List.length_append]; omega
    omega
  exact contains_of_prefix_at hlen ⟨t, hdrop.symm⟩

/-!
## The bundle-start stage, characterised at character level
-/

theorem pattern1Chk_eq (line : Str) (p : Nat)
    (hmark : containsSub line (str "=== Patching bundle:") = true)
    (hfind : findSubPos line (str "bundle:") = some p) :
    pattern1Chk line =
      match findSubPos (trim (line.drop (p + 7))) (str "===") with
      | some e => some (some (0, 0,
          str "Processing: " ++ trim ((trim (line.drop (p + 7))).take e)))
      | none => some none := by
  obtain ⟨hpre, hple⟩ := findSubPos_spec hfind
  obtain ⟨t, ht⟩ := hpre
  have hbyte : findSubByte line (str "bundle:") = some (bytesLen (line.take p)) := by
    unfold findSubByte; rw [hfind]; rfl
  have hline : line = (line.take p ++ str "bundle:") ++ t := by
    rw [List.append_assoc, ht, List.take_append_drop]
  have hblen : bytesLen (str "bundle:") = 7 := by decide
  have hdrop : byteDrop line (bytesLen (line.take p) + 7) = some t := by
    have key := byteDrop_append (line.take p ++ str "bundle:") t
    rw [← hline, bytesLen_append, hblen] at key
    exact key
  have ht' : t = line.drop (p + 7) := by
    have h1 : List.drop 7 (List.drop p line) = List.drop (p + 7) line :=
      List.drop_drop 7 p line
    have h2 := List.drop_left (str "bundle:") t
    have hlen7 : (str "bundle:").length = 7 := by decide
    rw [hlen7] at h2
    rw [← h1, ← ht, h2]
  rw [← ht']
  unfold pattern1Chk
  rw [if_pos hmark, hbyte]
  dsimp only
  rw [hdrop]
  dsimp only
  cases hq : findSubPos (trim t) (str "===") with
  | none =>
    have hfb : findSubByte (trim t) (str "===") = none := by
      unfold findSubByte; rw [hq]; rfl
    rw [hfb]
  | some q =>
    have hfb : findSubByte (trim t) (str "===") = some (bytesLen ((trim t).take q)) := by
      unfold findSubByte; rw [hq]; rfl
    rw [hfb]
    dsimp only
    have hbt := byteTake_append ((trim t).take q) ((trim t).drop q)
    rw [List.take_append_drop] at hbt
    rw [hbt]

theorem pattern1Chk_isSome (line : Str) : (pattern1Chk line).isSome = true := by
  by_cases hmark : containsSub line (str "=== Patching bundle:") = true
  · have hsplit : str "=== Patching bundle:" = str "=== Patching " ++ str "bundle:" := by
      decide
    have hb : containsSub line (str "bundle:") = true :=
      containsSub_of_append_split (hsplit ▸ hmark)
    obtain ⟨p, hp⟩ := findSubPos_of_contains hb
    rw [pattern1Chk_eq line p hmark hp]
    cases findSubPos (trim (line.drop (p + 7))) (str "===") <;> rfl
  · unfold pattern1Chk
    rw [if_neg hmark]
    rfl

/-!
## The "X of Y" heuristic, compared with its specification
-/

theorem scanTriples_short (line : Str) (ws : List Str) (h : ws.length ≤ 2) :
    scanTriples line ws = none := by
  match ws, h with
  | [], _ => rfl
  | [a], _ => rfl
  | [a, b], _ => rfl

theorem getElem?_drop_cons {α : Type} (W : List α) (j : Nat) (h : j < W.length) :
    ∃ w, W[j]? = some w ∧ W.drop j = w :: W.drop (j + 1) := by
  induction W generalizing j with
  | nil => simp at h
  | cons a W ih =>
    cases j with
    | zero => exact ⟨a, by simp, rfl⟩
    | succ j =>
      obtain ⟨w, h1, h2⟩ := ih j (by simpa using Nat.lt_of_succ_lt_succ h)
      exact ⟨w, by simpa using h1, by simpa using h2⟩

/-- The checked index loop of the source agrees with the specification's
triple scan on every index window of the word list, and never panics. -/
theorem xofyLoop_range' (line : Str) (W : List Str) :
    ∀ n j, j + n = W.length - 2 →
      xofyLoop line W (List.range' j n) = some (scanTriples line (W.drop j)) := by
  intro n
  induction n with
  | zero =>
    intro j hj
    have hlen : (W.drop j).length ≤ 2 := by
      rw [List.length_drop]
      omega
    rw [scanTriples_short line _ hlen]
    rfl
  | succ n ih =>
    intro j hj
    have hj2 : j + 2 < W.length := by omega
    obtain ⟨w0, hw0, hd0⟩ := getElem?_drop_cons W j (by omega)
    obtain ⟨w1, hw1, hd1⟩ := getElem?_drop_cons W (j + 1) (by omega)
    obtain ⟨w2, hw2, hd2⟩ := getElem?_drop_cons W (j + 2) (by omega)
    have hrange : List.range' j (n + 1) = j :: List.range' (j + 1) n := rfl
    rw [hrange]
    show (match W[j + 1]? with
      | none => none
      | some w1 =>
        if w1 = str "of" then
          match W[j]?, W[j + 2]? with
          | some w0, some w2 =>
            match parseU32 w0, parseU32 w2 with
            | some current, some total =>
              some (some (current, total, trim (splitFirstSeg line (str "==="))))
            | _, _ => xofyLoop line W (List.range' (j + 1) n)
          | _, _ => none
        else xofyLoop line W (List.range' (j + 1) n)) =
      some (scanTriples line (W.drop j))
    rw [hw0, hw1, hw2, hd0, hd1, hd2]
    show (if w1 = str "of" then
        match parseU32 w0, parseU32 w2 with
        | some current, some total =>
          some (some (current, total, trim (splitFirstSeg line (str "==="))))
        | _, _ => xofyLoop line W (List.range' (j + 1) n)
      else xofyLoop line W (List.range' (j + 1) n)) =
      some (scanTriples line (w0 :: w1 :: w2 :: W.drop (j + 3)))
    have hrec : xofyLoop line W (List.range' (j + 1) n) =
        some (scanTriples line (w1 :: w2 :: W.drop (j + 3))) := by
      have := ih (j + 1) (by omega)
      rw [hd1, hd2] at this
      exact this
    by_cases hof : w1 = str "of"
    · rw [if_pos hof]
      show _ = some (scanTriples line (w0 :: w1 :: w2 :: W.drop (j + 3)))
      rw [scanTriples]
      rw [if_pos hof]
      cases hp0 : parseU32 w0 with
      | none => rw [hrec]
      | some a =>
        cases hp2 : parseU32 w2 with
        | none => rw [hrec]
        | some b => rfl
    · rw [if_neg hof, scanTriples, if_neg hof, hrec]

theorem xofyChk_eq (line : Str) :
    xofyChk line = some (if containsSub line (str " of ") || containsSub line (str "/")
      then xofySpec line else none) := by
  unfold xofyChk
  by_cases h : (containsSub line (str " of ") || containsSub line (str "/")) = true
  · rw [if_pos h, if_pos h]
    have hmain := xofyLoop_range' line (splitWs line) ((splitWs line).length - 2) 0
      (by omega)
    rw [List.range_eq_range']
    rw [hmain]
    rfl
  · rw [if_neg h, if_neg h]

theorem parse_progress_chk_isSome (line : Str) :
    (parse_progress_chk line).isSome = true := by
  unfold parse_progress_chk
  obtain ⟨r, hr⟩ := Option.isSome_iff_exists.mp (pattern1Chk_isSome line)
  rw [hr]
  cases r with
  | none =>
    rw [xofyChk_eq]
    rfl
  | some v => rfl

/-!
## Event-trace lemmas
-/

theorem countP_append (p : Event → Bool) (a b : List Event) :
    countP p (a ++ b) = countP p a + countP p b := by
  unfold countP
  rw [List.filter_append, List.length_append]

theorem stdoutLineEvents_log_count (line : Str) :
    countP isLog (stdoutLineEvents line) = 1 := by
  unfold stdoutLineEvents countP
  cases parse_progress line with
  | none => rfl
  | some r =>
    obtain ⟨c, t, s⟩ := r
    by_cases h : 0 < t
    · simp only [if_pos h]
      rfl
    · simp only [if_neg h]
      rfl

theorem stdoutLineEvents_no_completion (line : Str) :
    countP isCompletion (stdoutLineEvents line) = 0 := by
  unfold stdoutLineEvents countP
  cases parse_progress line with
  | none => rfl
  | some r =>
    obtain ⟨c, t, s⟩ := r
    by_cases h : 0 < t
    · simp only [if_pos h]
      rfl
    · simp only [if_neg h]
      rfl

theorem stdoutLineEvents_log_mem (line : Str) :
    Event.log line (get_log_level line) ∈ stdoutLineEvents line := by
  unfold stdoutLineEvents
  exact List.mem_append_right _ (List.mem_singleton.mpr rfl)

theorem stdoutDrain_cons (l : Str) (ls : List Str) :
    stdoutDrain (l :: ls) = stdoutLineEvents l ++ stdoutDrain ls := by
  unfold stdoutDrain
  rw [List.map_cons, List.flatten_cons]

theorem stderrDrain_cons (l : Str) (ls : List Str) :
    stderrDrain (l :: ls) = stderrLineEvents l ++ stderrDrain ls := by
  unfold stderrDrain
  rw [List.map_cons, List.flatten_cons]

theorem stdoutDrain_log_count (lines : List Str) :
    countP isLog (stdoutDrain lines) = lines.length := by
  induction lines with
  | nil => rfl
  | cons l ls ih =>
    rw [stdoutDrain_cons, countP_append, ih, stdoutLineEvents_log_count]
    simp [Nat.add_comm]

theorem stderrDrain_log_count (lines : List Str) :
    countP isLog (stderrDrain lines) = lines.length := by
  induction lines with
  | nil => rfl
  | cons l ls ih =>
    rw [stderrDrain_cons, countP_append, ih]
    have h1 : countP isLog (stderrLineEvents l) = 1 := rfl
    rw [h1, List.length_cons, Nat.add_comm]

theorem stdoutDrain_no_completion (lines : List Str) :
    countP isCompletion (stdoutDrain lines) = 0 := by
  induction lines with
  | nil => rfl
  | cons l ls ih =>
    rw [stdoutDrain_cons, countP_append, ih, stdoutLineEvents_no_completion]

theorem stderrDrain_no_completion (lines : List Str) :
    countP isCompletion (stderrDrain lines) = 0 := by
  induction lines with
  | nil => rfl
  | cons l ls ih =>
    rw [stderrDrain_cons, countP_append, ih]
    rfl

theorem stderrDrain_no_progress (lines : List Str) :
    countP isProgress (stderrDrain lines) = 0 := by
  induction lines with
  | nil => rfl
  | cons l ls ih =>
    rw [stderrDrain_cons, countP_append, ih]
    rfl

theorem interleave_perm (s : List Bool) (xs ys : List Event) :
    List.Perm (interleave s xs ys) (xs ++ ys) := by
  induction s generalizing xs ys with
  | nil => exact List.Perm.refl _
  | cons b s ih =>
    cases b with
    | true =>
      cases xs with
      | nil =>
        show List.Perm ys ([] ++ ys)
        exact List.Perm.refl _
      | cons x xs =>
        show List.Perm (x :: interleave s xs ys) ((x :: xs) ++ ys)
        exact (ih xs ys).cons x
    | false =>
      cases ys with
      | nil =>
        show List.Perm xs (xs ++ [])
        rw [List.append_nil]
      | cons y ys =>
        show List.Perm (y :: interleave s xs ys) (xs ++ (y :: ys))
        exact ((ih xs ys).cons y).trans List.perm_middle.symm

theorem countP_interleave (p : Event → Bool) (s : List Bool) (xs ys : List Event) :
    countP p (interleave s xs ys) = countP p xs + countP p ys := by
  unfold countP
  rw [((interleave_perm s xs ys).filter p).length_eq, List.filter_append,
    List.length_append]

/-!
## Classifier and supervisor helper lemmas
-/

theorem success_eq_exitCode_zero (code : Option Int) :
    (code == some 0) = (code.getD (-1) == 0) := by
  cases code with
  | none => rfl
  | some n => rfl

theorem build_cli_args_ok (config : TaskConfig) (h : trim config.skin_path ≠ []) :
    ∃ args, build_cli_args config = Except.ok args := by
  unfold build_cli_args
  rw [if_neg h]
  exact ⟨_, rfl⟩

theorem get_log_level_stderr_tag (line : Str) :
    get_log_level (str "[STDERR] " ++ line) = str "error" := by
  unfold get_log_level
  have hup : toUpperStr (str "[STDERR] " ++ line) =
      str "[STDERR] " ++ toUpperStr line := by
    unfold toUpperStr
    rw [List.map_append, List.flatten_append]
    rw [show ((str "[STDERR] ").map rustToUpper).flatten = str "[STDERR] " from
      by decide]
  have hsplit : str "[STDERR] " ++ toUpperStr line =
      str "[STDERR]" ++ (' ' :: toUpperStr line) := rfl
  have hcont : containsSub (toUpperStr (str "[STDERR] " ++ line))
      (str "[STDERR]") = true := by
    rw [hup, hsplit]
    exact contains_of_prefix_at (p := 0) (Nat.zero_le _)
      ⟨' ' :: toUpperStr line, rfl⟩
  rw [if_pos]
  rw [hcont]
  simp

/-!
## Claim theorems
-/

/-- C9: the line classifier and the progress extractor are total over
arbitrary text: the checked extractor — in which every byte slice and
every token index of the source is guarded — never reaches a panicking
operation, and the classifier always returns one of the three levels. -/
theorem c9_parse_classify_total (line : Str) :
    (parse_progress_chk line).isSome = true ∧
    (get_log_level line = str "error" ∨ get_log_level line = str "warning" ∨
      get_log_level line = str "info") := by
  refine ⟨parse_progress_chk_isSome line, ?_⟩
  unfold get_log_level
  dsimp only
  split
  · exact Or.inl rfl
  split
  · exact Or.inr (Or.inl rfl)
  · exact Or.inr (Or.inr rfl)

/-- C4: for every input line the classifier returns "error" when the line
contains, case-insensitively, "ERROR", the failure glyph "✗", or the tag
"[STDERR]"; otherwise "warning" when it contains "WARN" or "WARNING";
otherwise "info" — the error check taking priority over the warning
check. -/
theorem c4_classifier_priority (line : Str) :
    get_log_level line =
      (if containsCI line (str "ERROR") || containsCI line (str "✗") ||
          containsCI line (str "[STDERR]") then str "error"
       else if containsCI line (str "WARN") || containsCI line (str "WARNING") then
         str "warning"
       else str "info") := by
  unfold get_log_level containsCI
  dsimp only
  rw [show toUpperStr (str "ERROR") = str "ERROR" from by decide,
      show toUpperStr (str "✗") = str "✗" from by decide,
      show toUpperStr (str "[STDERR]") = str "[STDERR]" from by decide,
      show toUpperStr (str "WARN") = str "WARN" from by decide,
      show toUpperStr (str "WARNING") = str "WARNING" from by decide]

/-- C2: every line read from either stream before its drainer loop stops
yields exactly one LogEvent, and the ProgressEvent, when one is emitted
for a stdout line, comes in addition to (not instead of) that line's
LogEvent, which is always present. -/
theorem c2_log_per_line (outLines errLines : List Str) :
    countP isLog (stdoutDrain outLines) = outLines.length ∧
    countP isLog (stderrDrain errLines) = errLines.length ∧
    (∀ line, countP isLog (stdoutLineEvents line) = 1 ∧
      countP isLog (stderrLineEvents line) = 1 ∧
      Event.log line (get_log_level line) ∈ stdoutLineEvents line) :=
  ⟨stdoutDrain_log_count outLines, stderrDrain_log_count errLines,
    fun line => ⟨stdoutLineEvents_log_count line, rfl,
      stdoutLineEvents_log_mem line⟩⟩

/-- C3 counterexample: on a tab-separated line the tokens are
`["5", "of", "10"]` and the claim's tokenize-and-scan description yields
`(5, 10, "5<tab>of<tab>10")`, but the code's containment pre-filter
(`" of "` with literal spaces, or `"/"`) fails, so the heuristic — and the
whole extractor — returns nothing. -/
theorem c3_counterexample :
    xofy (str "5\tof\t10") = none ∧
    parse_progress (str "5\tof\t10") = none ∧
    xofySpec (str "5\tof\t10") = some (5, 10, str "5\tof\t10") := by decide

/-- C3 amended: provided the line contains the literal substring " of "
or "/", the "X of Y" heuristic behaves exactly as described: tokenize on
whitespace, scan adjacent triples left to right, return the first
`(numberA, "of", numberB)` triple whose numbers parse, with status the
trimmed text before the line's first "===", skipping unparsable triples;
and the claim's example evaluates as stated. -/
theorem c3_xofy_matches_spec (line : Str)
    (h : (containsSub line (str " of ") || containsSub line (str "/")) = true) :
    xofy line = xofySpec line ∧
    parse_progress (str "5 of 10 things === frobnicating") =
      some (5, 10, str "5 of 10 things") := by
  constructor
  · unfold xofy
    rw [xofyChk_eq, Option.getD_some, if_pos h]
  · decide

theorem c3_xofy_matches_spec_witness :
    (containsSub (str "5 of 10") (str " of ") ||
      containsSub (str "5 of 10") (str "/")) = true ∧
    xofy (str "5 of 10") = xofySpec (str "5 of 10") :=
  ⟨by decide, (c3_xofy_matches_spec (str "5 of 10") (by decide)).1⟩

/-- C6 counterexample: a stderr line on which the extractor yields
`total = 5 > 0` still produces no ProgressEvent, because the stderr
drainer never runs the extractor — refuting the claim's "as for stdout
lines" clause at this input. -/
theorem c6_counterexample :
    parse_progress (str "3 of 5") = some (3, 5, str "3 of 5") ∧
    countP isProgress (stderrLineEvents (str "3 of 5")) = 0 := by decide

/-- C6 amended: every stderr line is emitted as exactly the LogEvent with
the "[STDERR] "-tagged message and level "error", which coincides with
the classifier applied to the tagged text; the progress extractor is not
run on stderr lines, so the stderr drainer never emits a ProgressEvent. -/
theorem c6_stderr_drainer (line : Str) (lines : List Str) :
    stderrLineEvents line =
      [Event.log (str "[STDERR] " ++ line) (str "error")] ∧
    get_log_level (str "[STDERR] " ++ line) = str "error" ∧
    countP isProgress (stderrDrain lines) = 0 :=
  ⟨rfl, get_log_level_stderr_tag line, stderrDrain_no_progress lines⟩

/-- C7 counterexample: in this line an earlier "bundle:" occurs before
the bundle-start marker.  The trimmed text between the markers is "y",
but the code slices after the line's first "bundle:" and returns
"Processing: x" — refuting the claim's description of `<name>`. -/
theorem c7_counterexample :
    specBundleName (str "bundle: x === Patching bundle: y ===") =
      some (str "y") ∧
    parse_progress (str "bundle: x === Patching bundle: y ===") =
      some (0, 0, str "Processing: x") ∧
    ¬ parse_progress (str "bundle: x === Patching bundle: y ===") =
      some (0, 0, str "Processing: y") := by decide

/-- C7 amended: for every line containing "=== Patching bundle:" in which
the text after the first occurrence of "bundle:", trimmed, contains a
later "===", the extractor returns `(0, 0, "Processing: <name>")`, where
`<name>` is the trimmed text of that trimmed remainder before its first
"===" — the text between the markers only when no earlier "bundle:"
occurs.  The stage is tried before the "X of Y" heuristic (it returns
without scanning), and with total = 0 the stdout drainer emits no
ProgressEvent for such a line, only its LogEvent. -/
theorem c7_bundle_start (line : Str) (p e : Nat)
    (hmark : containsSub line (str "=== Patching bundle:") = true)
    (hfind : findSubPos line (str "bundle:") = some p)
    (hclose : findSubPos (trim (line.drop (p + 7))) (str "===") = some e) :
    parse_progress line =
      some (0, 0, str "Processing: " ++ trim ((trim (line.drop (p + 7))).take e)) ∧
    stdoutLineEvents line = [Event.log line (get_log_level line)] := by
  have hpp : parse_progress line =
      some (0, 0, str "Processing: " ++ trim ((trim (line.drop (p + 7))).take e)) := by
    unfold parse_progress parse_progress_chk
    rw [pattern1Chk_eq line p hmark hfind, hclose]
    rfl
  refine ⟨hpp, ?_⟩
  unfold stdoutLineEvents
  rw [hpp]
  rfl

theorem c7_bundle_start_witness :
    findSubPos (str "=== Patching bundle: foo ===") (str "bundle:") = some 13 ∧
    parse_progress (str "=== Patching bundle: foo ===") =
      some (0, 0, str "Processing: " ++
        trim ((trim ((str "=== Patching bundle: foo ===").drop (13 + 7))).take 4)) :=
  ⟨by decide, (c7_bundle_start (str "=== Patching bundle: foo ===") 13 4
    (by decide) (by decide) (by decide)).1⟩

/-- C10 counterexample: this line ends with the bundle-start prefix
(so no "===" — indeed nothing — follows the prefix), yet stage 1 still
produces a result, slicing after the line's earlier first "bundle:",
and the "X of Y" heuristic (which yields nothing here) is never
consulted — refuting the claim's universal part. -/
theorem c10_counterexample :
    str "bundle: a === b " ++ str "=== Patching bundle:" =
      str "bundle: a === b === Patching bundle:" ∧
    parse_progress (str "bundle: a === b === Patching bundle:") =
      some (0, 0, str "Processing: a") ∧
    xofy (str "bundle: a === b === Patching bundle:") = none := by decide

/-- C10 amended: for every line containing "=== Patching bundle:" such
that the text after the first occurrence of "bundle:", trimmed, contains
no "===", stage 1 falls through and the extractor agrees with the
"X of Y" heuristic; in particular on "=== Patching bundle: 3 of 5" it
returns `some (3, 5, "")` — empty status, the text before the line's
first "===" being empty — and, total being 5 > 0, the stdout drainer
forwards a ProgressEvent with empty status. -/
theorem c10_no_close_falls_through (line : Str) (p : Nat)
    (hmark : containsSub line (str "=== Patching bundle:") = true)
    (hfind : findSubPos line (str "bundle:") = some p)
    (hnoclose : containsSub (trim (line.drop (p + 7))) (str "===") = false) :
    parse_progress line = xofy line ∧
    parse_progress (str "=== Patching bundle: 3 of 5") = some (3, 5, []) ∧
    Event.progress 3 5 [] ∈ stdoutLineEvents (str "=== Patching bundle: 3 of 5") := by
  refine ⟨?_, by decide, by decide⟩
  unfold parse_progress parse_progress_chk xofy
  rw [pattern1Chk_eq line p hmark hfind,
    findSubPos_eq_none_of_not_contains hnoclose]

theorem c10_no_close_falls_through_witness :
    containsSub (str "=== Patching bundle: 3 of 5")
      (str "=== Patching bundle:") = true ∧
    findSubPos (str "=== Patching bundle: 3 of 5") (str "bundle:") = some 13 ∧
    containsSub (trim ((str "=== Patching bundle: 3 of 5").drop (13 + 7)))
      (str "===") = false ∧
    parse_progress (str "=== Patching bundle: 3 of 5") =
      xofy (str "=== Patching bundle: 3 of 5") :=
  ⟨by decide, by decide, by decide,
    (c10_no_close_falls_through (str "=== Patching bundle: 3 of 5") 13
      (by decide) (by decide) (by decide)).1⟩

/-!
## Supervisor claims
-/

/-- C5: an empty-after-trim skin path rejects the run before anything
else happens — no event of any kind, and the OS spawn is never reached;
a spawn failure fails the run immediately afterwards — still before any
event has been emitted. -/
theorem c5_config_and_spawn_errors (config : TaskConfig) (w : RunWorld) :
    (trim config.skin_path = [] →
      run_python_task config w =
        ⟨[], RunRes.err (str "Skin folder is required."), false⟩) ∧
    (∀ e, trim config.skin_path ≠ [] → w.spawnErr = some e →
      run_python_task config w =
        ⟨[], RunRes.err (str "Failed to spawn process: " ++ e), true⟩) := by
  constructor
  · intro h
    unfold run_python_task build_cli_args
    rw [if_pos h]
  · intro e hskin hspawn
    obtain ⟨args, hargs⟩ := build_cli_args_ok config hskin
    unfold run_python_task
    rw [hargs, hspawn]

/-- C8: on the path where spawn, capture, wait and both joins succeed,
the returned result carries the raw untagged stdout lines joined with
newlines in read order, likewise for stderr, and the exit code with the
`-1` sentinel when the platform reports no numeric code. -/
theorem c8_run_result (config : TaskConfig) (w : RunWorld)
    (hskin : trim config.skin_path ≠ []) (hspawn : w.spawnErr = none)
    (hco : w.captureOut = true) (hce : w.captureErr = true)
    (hwait : w.waitErr = none) (hjo : w.joinOutErr = none)
    (hje : w.joinErrErr = none) :
    (run_python_task config w).result =
      RunRes.ok ⟨joinNL w.stdoutLines, joinNL w.stderrLines,
        w.exitCode.getD (-1)⟩ := by
  obtain ⟨args, hargs⟩ := build_cli_args_ok config hskin
  unfold run_python_task
  rw [hargs, hspawn, hco, hce, hwait, hjo, hje]
  rfl

/-- C1: with spawn and stream capture successful — when the wait returns
a status and both drainer joins succeed, the emitted trace is the
drainers' interleaving followed by exactly one CompletionEvent, whose
success flag equals (exitCode == 0) with the exit code defaulted to -1;
the interleaving itself contains no completion, so the CompletionEvent
comes after every LogEvent/ProgressEvent and is emitted exactly once.
When the wait or either join fails, the run instead returns that error
to the caller and no CompletionEvent is ever emitted. -/
theorem c1_completion_protocol (config : TaskConfig) (w : RunWorld)
    (hskin : trim config.skin_path ≠ []) (hspawn : w.spawnErr = none)
    (hco : w.captureOut = true) (hce : w.captureErr = true) :
    (w.waitErr = none → w.joinOutErr = none → w.joinErrErr = none →
      (run_python_task config w).events =
        interleave w.sched (stdoutDrain w.stdoutLines)
          (stderrDrain w.stderrLines) ++
        [Event.completion (w.exitCode.getD (-1) == 0) (w.exitCode.getD (-1))
          (completionMsg w.exitCode)] ∧
      countP isCompletion
        (interleave w.sched (stdoutDrain w.stdoutLines)
          (stderrDrain w.stderrLines)) = 0 ∧
      countP isCompletion (run_python_task config w).events = 1) ∧
    (∀ e, w.waitErr = some e →
      (run_python_task config w).result =
        RunRes.err (str "Failed to wait for process: " ++ e) ∧
      countP isCompletion (run_python_task config w).events = 0) ∧
    (∀ e, w.waitErr = none → w.joinOutErr = some e →
      (run_python_task config w).result =
        RunRes.err (str "Failed to read stdout: " ++ e) ∧
      countP isCompletion (run_python_task config w).events = 0) ∧
    (∀ e, w.waitErr = none → w.joinOutErr = none → w.joinErrErr = some e →
      (run_python_task config w).result =
        RunRes.err (str "Failed to read stderr: " ++ e) ∧
      countP isCompletion (run_python_task config w).events = 0) := by
  obtain ⟨args, hargs⟩ := build_cli_args_ok config hskin
  have hdrain0 : countP isCompletion
      (interleave w.sched (stdoutDrain w.stdoutLines)
        (stderrDrain w.stderrLines)) = 0 := by
    rw [countP_interleave, stdoutDrain_no_completion, stderrDrain_no_completion]
  refine ⟨?_, ?_, ?_, ?_⟩
  · intro hwait hjo hje
    have hrun : run_python_task config w =
        ⟨interleave w.sched (stdoutDrain w.stdoutLines)
            (stderrDrain w.stderrLines) ++
          [Event.completion (w.exitCode == some 0) (w.exitCode.getD (-1))
            (completionMsg w.exitCode)],
         RunRes.ok ⟨joinNL w.stdoutLines, joinNL w.stderrLines,
           w.exitCode.getD (-1)⟩, true⟩ := by
      unfold run_python_task
      rw [hargs, hspawn, hco, hce, hwait, hjo, hje]
      rfl
    refine ⟨?_, hdrain0, ?_⟩
    · rw [hrun, success_eq_exitCode_zero]
    · rw [hrun]
      show countP isCompletion (interleave w.sched (stdoutDrain w.stdoutLines)
        (stderrDrain w.stderrLines) ++
        [Event.completion (w.exitCode == some 0) (w.exitCode.getD (-1))
          (completionMsg w.exitCode)]) = 1
      rw [countP_append, hdrain0]
      rfl
  · intro e hwait
    have hrun : run_python_task config w =
        ⟨interleave w.sched (stdoutDrain w.stdoutLines)
            (stderrDrain w.stderrLines),
         RunRes.err (str "Failed to wait for process: " ++ e), true⟩ := by
      unfold run_python_task
      rw [hargs, hspawn, hco, hce, hwait]
      rfl
    rw [hrun]
    exact ⟨rfl, hdrain0⟩
  · intro e hwait hjo
    have hrun : run_python_task config w =
        ⟨interleave w.sched (stdoutDrain w.stdoutLines)
            (stderrDrain w.stderrLines),
         RunRes.err (str "Failed to read stdout: " ++ e), true⟩ := by
      unfold run_python_task
      rw [hargs, hspawn, hco, hce, hwait, hjo]
      rfl
    rw [hrun]
    exact ⟨rfl, hdrain0⟩
  · intro e hwait hjo hje
    have hrun : run_python_task config w =
        ⟨interleave w.sched (stdoutDrain w.stdoutLines)
            (stderrDrain w.stderrLines),
         RunRes.err (str "Failed to read stderr: " ++ e), true⟩ := by
      unfold run_python_task
      rw [hargs, hspawn, hco, hce, hwait, hjo, hje]
      rfl
    rw [hrun]
    exact ⟨rfl, hdrain0⟩

theorem c5_config_and_spawn_errors_witness :
    run_python_task cfgNoSkin wSpawnFail =
      ⟨[], RunRes.err (str "Skin folder is required."), false⟩ ∧
    run_python_task cfgDemo wSpawnFail =
      ⟨[], RunRes.err (str "Failed to spawn process: " ++ str "no such file"),
        true⟩ :=
  ⟨(c5_config_and_spawn_errors cfgNoSkin wSpawnFail).1 (by decide),
   (c5_config_and_spawn_errors cfgDemo wSpawnFail).2 (str "no such file")
     (by decide) rfl⟩

theorem c8_run_result_witness :
    (run_python_task cfgDemo wDemo).result =
      RunRes.ok ⟨str "hello\n2 of 4 done", str "oops", 0⟩ := by
  have h := c8_run_result cfgDemo wDemo (by decide) rfl rfl rfl rfl rfl rfl
  exact h.trans (by decide)

theorem c1_completion_protocol_witness :
    (run_python_task cfgDemo wDemo).events =
      interleave wDemo.sched (stdoutDrain wDemo.stdoutLines)
        (stderrDrain wDemo.stderrLines) ++
      [Event.completion true 0 (completionMsg (some 0))] ∧
    countP isCompletion (run_python_task cfgDemo wDemo).events = 1 := by
  have h := (c1_completion_protocol cfgDemo wDemo (by decide) rfl rfl rfl).1
    rfl rfl rfl
  exact ⟨h.1, h.2.2⟩
